import Mathlib

/-!
Shallow embedding of `src/bng/bng_engine.cpp` (namespace `BNG`, class `BNGEngine`)
and proofs about its BNGL export, statistics and complex-instantiation routines.

Modelling conventions:
* C++ `double` values that the engine never computes with (it only renders them
  through the canonical float-to-text routine `f_to_str`) are represented by
  their rendered `String`; `f_to_str` is then the identity injection into the
  output text.  No arithmetic on doubles occurs anywhere in `bng_engine.cpp`.
* `std::ostream` accumulation is modelled by explicit `String` state passing:
  each emitter takes the current contents of the shared `out_parameters` stream
  and returns the extended contents together with its own section stream.
* `compartment_id_t` and `species_id_t` are dense indices (`Nat`);
  `COMPARTMENT_ID_INVALID` is modelled by `Option.none` of the parent field.
* The unbounded C++ recursion of `collect_compartment_children_recursively` is
  modelled with explicit fuel; the top-level call supplies enough fuel for any
  well-formed (acyclic, consistent) compartment forest, and the ordering
  theorems below are proved for every fuel value, so no fact depends on the
  particular fuel bound.
-/

namespace BNG

/-! ### Names from `bngl_names.h`

Modelled from the spec: the header `bngl_names.h` is not part of `src/`; the
spec only requires these to be fixed, distinct symbol names (indentation
string, section delimiters, parameter-name symbols, name prefixes and the
reserved default-compartment / species-superclass wildcard names), so they are
given here as concrete string constants.  No claim depends on their exact
spelling.  `MCELL_DIFFUSION_CONSTANT_3D_PREF`, `MCELL_DIFFUSION_CONSTANT_2D_PREF`
and `MCELL_REDEFINE_PREF` model the source constants whose names end in
`_PREFIX`. -/

def IND : String := "  "

def BEGIN_MOLECULE_TYPES : String := "begin molecule types"
def END_MOLECULE_TYPES : String := "end molecule types"
def BEGIN_REACTION_RULES : String := "begin reaction rules"
def END_REACTION_RULES : String := "end reaction rules"
def BEGIN_COMPARTMENTS : String := "begin compartments"
def END_COMPARTMENTS : String := "end compartments"

def PARAM_THICKNESS : String := "MCELL_THICKNESS"
def PARAM_RATE_CONV_VOLUME : String := "MCELL_RATE_CONV_VOLUME"
def PARAM_RATE_CONV_THICKNESS : String := "MCELL_RATE_CONV_THICKNESS"
def PARAM_MCELL2BNG_VOL_CONV : String := "MCELL2BNG_VOL_CONV"
def PARAM_MCELL2BNG_SURF_CONV : String := "MCELL2BNG_SURF_CONV"
def PARAM_VOL_RXN : String := "VOL_RXN"
def PARAM_SURF_RXN : String := "SURF_RXN"
def MCELL_REDEFINE_PREF : String := "MCELL_REDEFINE_"
def NA_VALUE_STR : String := "6.02214e23"

def MCELL_DIFFUSION_CONSTANT_3D_PREF : String := "MCELL_DIFFUSION_CONSTANT_3D_"
def MCELL_DIFFUSION_CONSTANT_2D_PREF : String := "MCELL_DIFFUSION_CONSTANT_2D_"

def PREFIX_VOLUME : String := "v_"
def PREFIX_AREA : String := "sa_"

def DEFAULT_COMPARTMENT_NAME : String := "default_compartment"

def ALL_MOLECULES : String := "ALL_MOLECULES"
def ALL_VOLUME_MOLECULES : String := "ALL_VOLUME_MOLECULES"
def ALL_SURFACE_MOLECULES : String := "ALL_SURFACE_MOLECULES"

/-- Canonical float-to-text routine.  Doubles are modelled by their canonical
rendering (see the module comment), so in the embedding `f_to_str` is the
identity on the already-rendered text. -/
def f_to_str (x : String) : String := x

/-- Modelled from the spec: `is_species_superclass` (declared outside `src/`)
tests whether a molecule-type name is one of the reserved species-superclass
wildcard names that must be skipped on export.  The trailing word of the C++
name is avoided in the Lean identifier. -/
def is_species_superclass_name (n : String) : Bool :=
  n = ALL_MOLECULES || n = ALL_VOLUME_MOLECULES || n = ALL_SURFACE_MOLECULES

/-! ### Data model -/

/-- Classification of an `ElemMolType` (flags `is_vol` / `is_surf` /
`is_reactive_surface` of the source, which are mutually exclusive for the
export code paths).  Modelled from the spec: the flag accessors live in
headers outside `src/`; the spec prescribes a closed tagged variant. -/
inductive MolKind where
  | vol
  | surf
  | reactive_surface
deriving DecidableEq, Repr

/-- An elementary molecule type.  `D` is the rendered diffusion constant and
`decl_str` the structural rendering `mt.to_str(data)` (opaque to this core). -/
structure ElemMolType where
  name : String
  D : String
  kind : MolKind
  decl_str : String
deriving DecidableEq, Repr

def ElemMolType.is_reactive_surface (mt : ElemMolType) : Bool :=
  mt.kind = MolKind.reactive_surface

def ElemMolType.is_vol (mt : ElemMolType) : Bool := mt.kind = MolKind.vol

def ElemMolType.is_surf (mt : ElemMolType) : Bool := mt.kind = MolKind.surf

/-- Classification of a reaction rule.  Modelled from the spec: the predicate
implementations (`is_unimol`, `is_bimol`, `is_vol_rxn`,
`is_bimol_vol_surf_rxn`, `is_bimol_surf_surf_rxn`, `is_reactive_surface_rxn`)
live outside `src/`; the spec prescribes a closed tagged variant over
unimolecular / volume-bimolecular / surface-bimolecular / reactive-surface /
other, refined here with the two defensive-fallback shapes the source
dispatch distinguishes (a bimolecular rule with no geometric class, and a
rule that is neither unimolecular nor bimolecular). -/
inductive RxnKind where
  | unimol
  | bimol_vol_vol
  | bimol_vol_surf
  | bimol_surf_surf
  | bimol_other
  | reactive_surface
  | arity_other
deriving DecidableEq, Repr

/-- A reaction rule: rendered base rate constant, classification, and the
textual rendering `rr->to_str(false, false, false)` (opaque to this core). -/
structure RxnRule where
  base_rate_constant : String
  kind : RxnKind
  bngl_str : String
deriving DecidableEq, Repr

def RxnRule.is_reactive_surface_rxn (r : RxnRule) : Bool :=
  r.kind = RxnKind.reactive_surface

def RxnRule.is_bimol (r : RxnRule) : Bool :=
  r.kind = RxnKind.bimol_vol_vol || r.kind = RxnKind.bimol_vol_surf ||
  r.kind = RxnKind.bimol_surf_surf || r.kind = RxnKind.bimol_other

def RxnRule.is_vol_rxn (r : RxnRule) : Bool := r.kind = RxnKind.bimol_vol_vol

def RxnRule.is_bimol_vol_surf_rxn (r : RxnRule) : Bool :=
  r.kind = RxnKind.bimol_vol_surf

def RxnRule.is_bimol_surf_surf_rxn (r : RxnRule) : Bool :=
  r.kind = RxnKind.bimol_surf_surf

def RxnRule.is_unimol (r : RxnRule) : Bool := r.kind = RxnKind.unimol

/-- A compartment: dense integer id, name, dimensionality flag, rendered
scalar extent (`get_volume_or_area()`), optional parent id
(`COMPARTMENT_ID_INVALID` = `none`) and the ordered children-id sequence. -/
structure Compartment where
  id : Nat
  name : String
  is_3d : Bool
  volume_or_area : String
  parent_compartment_id : Option Nat
  children_compartments : List Nat
deriving DecidableEq, Repr

/-- The structural part of a species (class `Cplx` of the source):
orientation and compartment-id attributes plus the opaque molecular pattern. -/
structure Cplx where
  orientation : Int
  compartment_id : Nat
  elem_mols : String
deriving DecidableEq, Repr

def Cplx.set_orientation (c : Cplx) (o : Int) : Cplx := { c with orientation := o }

def Cplx.set_compartment_id (c : Cplx) (id : Nat) : Cplx :=
  { c with compartment_id := id }

/-- A species template: its structural complex, the instantiated-flag and the
optional reactant-class id (`has_valid_reactant_class_id` = `isSome`). -/
structure Species where
  cplx : Cplx
  was_instantiated : Bool
  reactant_class_id : Option Nat
deriving DecidableEq, Repr

def Species.has_valid_reactant_class_id (s : Species) : Bool :=
  s.reactant_class_id.isSome

/-- The immutable model store (`BNGData`). -/
structure BNGData where
  elem_mol_types : List ElemMolType
  compartments : List Compartment
deriving DecidableEq, Repr

/-- Fallback value for an out-of-range compartment access; in the C++ source
such an access is a fatal out-of-bounds error, so this value is inert (it has
no children and no parent) and only keeps the embedding total. -/
def out_of_range_compartment : Compartment :=
  { id := 0, name := "", is_3d := true, volume_or_area := "0",
    parent_compartment_id := none, children_compartments := [] }

def BNGData.get_compartment (data : BNGData) (id : Nat) : Compartment :=
  data.compartments.getD id out_of_range_compartment

/-- Modelled from the spec: the rule registry (`RxnContainer`, outside `src/`)
is consumed through its ordered vector of registered rules, its rule-class
count and its existing-reactant-class collection. -/
structure RxnContainer where
  rxn_rules_vector : List RxnRule
  num_rxn_classes : Nat
  existing_reactant_classes : Finset Nat

def RxnContainer.get_num_rxn_classes (c : RxnContainer) : Nat := c.num_rxn_classes

def RxnContainer.get_num_existing_reactant_classes (c : RxnContainer) : Nat :=
  c.existing_reactant_classes.card

/-- Modelled from the spec: the species registry (`SpeciesContainer`, outside
`src/`) is consumed through its ordered, densely-indexed species vector. -/
structure SpeciesContainer where
  species_vector : List Species

structure BNGEngine where
  data : BNGData
  all_rxns : RxnContainer
  all_species : SpeciesContainer

/-! ### `get_stats_report` (lines 39-60) -/

/-- Body of the scan loop of `get_stats_report` (lines 44-52): bump the
active-species counter and record the reactant-class id (a `std::set` insert
in the source) for every instantiated species. -/
def stats_scan_step (acc : Nat × Finset Nat) (s : Species) : Nat × Finset Nat :=
  if s.was_instantiated then
    (acc.1 + 1,
     match s.reactant_class_id with
     | some rc => insert rc acc.2
     | none => acc.2)
  else acc

/-- The scan loop of `get_stats_report`: one pass over the species vector
accumulating the active-species counter and the set of active reactant
classes.  The `release_assert(s != nullptr)` cannot fire in the pointer-free
embedding. -/
def stats_scan (engine : BNGEngine) : Nat × Finset Nat :=
  engine.all_species.species_vector.foldl stats_scan_step (0, ∅)

/-- `BNGEngine::get_stats_report` (lines 39-60). -/
def get_stats_report (engine : BNGEngine) : String :=
  let scan := stats_scan engine
  "[" ++ "active/total species " ++ toString scan.1 ++ "/" ++
    toString engine.all_species.species_vector.length ++
    ", rxn classes " ++ toString engine.all_rxns.get_num_rxn_classes ++
    ", active/total reactant classes " ++ toString scan.2.card ++ "/" ++
    toString engine.all_rxns.get_num_existing_reactant_classes ++ "]"

/-! ### `create_cplx_from_species` (lines 63-70) -/

/-- `BNGEngine::create_cplx_from_species`: look up the species template,
value-copy its complex, overwrite orientation and compartment id, return the
copy.  An invalid id is a fatal error in the source (`all_species.get(id)`
asserts), modelled as `none`. -/
def create_cplx_from_species (engine : BNGEngine) (id : Nat) (o : Int)
    (compartment_id : Nat) : Option Cplx :=
  match engine.all_species.species_vector.get? id with
  | none => none
  | some s =>
    let copy := s.cplx
    some ((copy.set_orientation o).set_compartment_id compartment_id)

/-! ### `export_molecule_types_as_bngl` (lines 96-119) -/

/-- Body of the molecule-type loop (lines 100-116): state is the pair
(`out_parameters`, `out_molecule_types`). -/
def export_molecule_type_entry (st : String × String) (mt : ElemMolType) :
    String × String :=
  if mt.is_reactive_surface || is_species_superclass_name mt.name then st
  else
    let ms := st.2 ++ IND ++ mt.decl_str ++ "\n"
    let ps := st.1 ++
      (if mt.is_vol then IND ++ MCELL_DIFFUSION_CONSTANT_3D_PREF
       else if mt.is_surf then IND ++ MCELL_DIFFUSION_CONSTANT_2D_PREF
       else "") ++ mt.name ++ " " ++ f_to_str mt.D ++ "\n"
    (ps, ms)

/-- `BNGEngine::export_molecule_types_as_bngl` (lines 96-119); returns the new
contents of (`out_parameters`, `out_molecule_types`). -/
def export_molecule_types_as_bngl (engine : BNGEngine) (out_parameters : String) :
    String × String :=
  let ps0 := out_parameters ++ "\n" ++ IND ++ "# diffusion constants\n"
  let st := engine.data.elem_mol_types.foldl export_molecule_type_entry
    (ps0, BEGIN_MOLECULE_TYPES ++ "\n")
  (st.1, st.2 ++ END_MOLECULE_TYPES ++ "\n")

/-! ### `generate_rxn_rate_conversion_factors` (lines 122-156) -/

/-- The mode-independent trailer of `generate_rxn_rate_conversion_factors`
(lines 147-155): the two derived combined conversion parameters folding in
the Avogadro constant, each with its unity scaling knob and the redefinition
line downstream tooling may override. -/
def rate_conversion_tail : String :=
  "\n" ++ IND ++ "# parameters to convert rates in MCell and BioNetGen\n" ++
  IND ++ PARAM_MCELL2BNG_VOL_CONV ++ " " ++ NA_VALUE_STR ++ " * " ++
    PARAM_RATE_CONV_VOLUME ++ "\n" ++
  IND ++ PARAM_VOL_RXN ++ " 1\n" ++
  IND ++ MCELL_REDEFINE_PREF ++ PARAM_VOL_RXN ++ " " ++
    PARAM_MCELL2BNG_VOL_CONV ++ "\n" ++
  IND ++ PARAM_MCELL2BNG_SURF_CONV ++ " " ++ PARAM_RATE_CONV_THICKNESS ++ "\n" ++
  IND ++ PARAM_SURF_RXN ++ " 1\n" ++
  IND ++ MCELL_REDEFINE_PREF ++ PARAM_SURF_RXN ++ " " ++
    PARAM_MCELL2BNG_SURF_CONV ++ "\n\n"

/-- `generate_rxn_rate_conversion_factors` (lines 122-156): the text appended
to `out_parameters`. -/
def generate_rxn_rate_conversion_factors (rates_for_nfsim : Bool)
    (volume_um3_for_nfsim area_um3_for_nfsim : String) : String :=
  "\n" ++
  IND ++ PARAM_THICKNESS ++ " 0.01 # um, assumed membrane thickness\n" ++
  (if rates_for_nfsim then
    IND ++ "# volume rxn rate conversion factor for NFSim\n" ++
    IND ++ PARAM_RATE_CONV_VOLUME ++ " " ++ f_to_str volume_um3_for_nfsim ++
      " * 1e-15\n" ++
    "\n" ++
    IND ++ "# surface-surface rxn rate conversion factor for NFSim, in um\n" ++
    IND ++ PARAM_RATE_CONV_THICKNESS ++ " " ++ f_to_str area_um3_for_nfsim ++
      " * " ++ PARAM_THICKNESS ++ " * 1e-15\n"
  else
    IND ++ "# volume rxn rate conversion factor for um^3 to litres\n" ++
    IND ++ PARAM_RATE_CONV_VOLUME ++ " 1e-15\n" ++
    "\n" ++
    IND ++ "# surface-surface rxn rate conversion factor for um^2 to um^3 using membrane thickness, in um\n" ++
    IND ++ PARAM_RATE_CONV_THICKNESS ++ " " ++ PARAM_THICKNESS ++ "\n") ++
  rate_conversion_tail

/-! ### `export_reaction_rules_as_bngl` (lines 159-219) -/

/-- Text contributed by one iteration of the rule loop (lines 175-215):
`param_text` is appended to `out_parameters`, `rule_text` to
`out_reaction_rules` and `err_text` to the local `err_msg` accumulator.
A `continue` in the source leaves the started parameter line unterminated and
emits no reaction-rule line. -/
structure RuleEmission where
  param_text : String
  rule_text : String
  err_text : String
deriving DecidableEq, Repr

/-- Body of the rule loop (lines 175-215) for the rule at index `i`. -/
def export_one_rxn_rule (i : Nat) (rr : RxnRule) : RuleEmission :=
  let rxn_as_bngl := rr.bngl_str
  let rate_param := "k" ++ toString i
  let param_head := IND ++ rate_param ++ " " ++ f_to_str rr.base_rate_constant
  if rr.is_reactive_surface_rxn then
    { param_text := param_head, rule_text := "",
      err_text := "Cannot express surface class reaction in BNGL, error for " ++
        rxn_as_bngl ++ ".\n" }
  else if rr.is_bimol then
    if rr.is_vol_rxn || rr.is_bimol_vol_surf_rxn then
      { param_text := param_head ++ " / " ++ PARAM_MCELL2BNG_VOL_CONV ++ " * " ++
          PARAM_VOL_RXN ++ "\n",
        rule_text := IND ++ rxn_as_bngl ++ " " ++ rate_param ++ "\n",
        err_text := "" }
    else if rr.is_bimol_surf_surf_rxn then
      { param_text := param_head ++ " / " ++ PARAM_MCELL2BNG_SURF_CONV ++ " * " ++
          PARAM_SURF_RXN ++ "\n",
        rule_text := IND ++ rxn_as_bngl ++ " " ++ rate_param ++ "\n",
        err_text := "" }
    else
      { param_text := param_head, rule_text := "",
        err_text := "Internal error, unexpected reaction type for " ++
          rxn_as_bngl ++ ".\n" }
  else if rr.is_unimol then
    { param_text := param_head ++ "\n",
      rule_text := IND ++ rxn_as_bngl ++ " " ++ rate_param ++ "\n",
      err_text := "" }
  else
    { param_text := param_head, rule_text := "",
      err_text := "Internal error, unexpected reaction type for " ++
        rxn_as_bngl ++ ".\n" }

/-- Folding step accumulating the three streams of the rule loop. -/
def rule_loop_step (acc : String × String × String) (irr : Nat × RxnRule) :
    String × String × String :=
  let e := export_one_rxn_rule irr.1 irr.2
  (acc.1 ++ e.param_text, acc.2.1 ++ e.rule_text, acc.2.2 ++ e.err_text)

/-- Result of `export_reaction_rules_as_bngl`: the final contents of the two
streams, the local `err_msg` accumulator, and `returned` — the value the
function actually returns, which per line 218 of the source is the literal
`""` (the accumulated `err_msg` is discarded). -/
structure RxnExportResult where
  out_parameters : String
  out_reaction_rules : String
  err_msg : String
  returned : String
deriving DecidableEq, Repr

/-- `BNGEngine::export_reaction_rules_as_bngl` (lines 159-219). -/
def export_reaction_rules_as_bngl (engine : BNGEngine) (out_parameters : String)
    (rates_for_nfsim : Bool) (volume_um3_for_nfsim area_um3_for_nfsim : String) :
    RxnExportResult :=
  let params0 := out_parameters ++
    generate_rxn_rate_conversion_factors rates_for_nfsim volume_um3_for_nfsim
      area_um3_for_nfsim
  let rules0 := BEGIN_REACTION_RULES ++ "\n"
  let params1 := params0 ++ "\n" ++ IND ++ "# reaction rates\n"
  let fin := engine.all_rxns.rxn_rules_vector.enum.foldl rule_loop_step
    (params1, rules0, "")
  { out_parameters := fin.1,
    out_reaction_rules := fin.2.1 ++ END_REACTION_RULES ++ "\n",
    err_msg := fin.2.2,
    returned := "" }

/-! ### Compartment ordering and `export_compartments_as_bngl` (lines 222-292) -/

/-- `collect_compartment_children_recursively` (lines 222-239).  State is the
pair (`used_compartment_ids`, `sorted_compartment_ids`).  The C++ recursion is
unbounded; the embedding carries explicit fuel (see module comment). -/
def collect_compartment_children_recursively (data : BNGData) :
    Nat → Nat → List Nat × List Nat → List Nat × List Nat
  | 0, _, st => st
  | fuel + 1, id, st =>
    if id ∈ st.1 then st
    else
      (data.get_compartment id).children_compartments.foldl
        (fun st' child_id =>
          collect_compartment_children_recursively data fuel child_id st')
        (id :: st.1, st.2 ++ [id])

/-- The dependency sort of `export_compartments_as_bngl` (lines 248-260):
start a guarded depth-first traversal at every parentless compartment, in
stored order.  The fuel bound `|compartments| + 1` is enough for every
well-formed forest (each level of recursion below the root marks a previously
unvisited compartment). -/
def sorted_compartment_ids (data : BNGData) : List Nat :=
  (data.compartments.foldl
    (fun st comp =>
      if comp.parent_compartment_id = none then
        collect_compartment_children_recursively data
          (data.compartments.length + 1) comp.id st
      else st)
    ([], [])).2

/-- Body of the compartment emission loop (lines 263-287): state is the pair
(`out_parameters`, `out_compartments`). -/
def export_compartment_entry (data : BNGData) (st : String × String)
    (comp_id : Nat) : String × String :=
  let comp := data.get_compartment comp_id
  if comp.name = DEFAULT_COMPARTMENT_NAME then st
  else
    let st1 :=
      if comp.is_3d then
        let vol_name := PREFIX_VOLUME ++ comp.name
        (st.1 ++ IND ++ vol_name ++ " " ++ f_to_str comp.volume_or_area ++
           " # um^3\n",
         st.2 ++ IND ++ comp.name ++ " 3 " ++ vol_name)
      else
        let area_name := PREFIX_AREA ++ comp.name
        (st.1 ++ IND ++ area_name ++ " " ++ f_to_str comp.volume_or_area ++
           " # um^2\n",
         st.2 ++ IND ++ comp.name ++ " 2 " ++ area_name ++ " * " ++
           PARAM_THICKNESS)
    match comp.parent_compartment_id with
    | some pid =>
      (st1.1, st1.2 ++ " " ++ (data.get_compartment pid).name ++ "\n")
    | none => (st1.1, st1.2 ++ "\n")

/-- Result of `export_compartments_as_bngl`; `returned` is the literal `""`
of line 291. -/
structure CompExportResult where
  out_parameters : String
  out_compartments : String
  returned : String
deriving DecidableEq, Repr

/-- `BNGEngine::export_compartments_as_bngl` (lines 242-292). -/
def export_compartments_as_bngl (engine : BNGEngine) (out_parameters : String) :
    CompExportResult :=
  let sorted := sorted_compartment_ids engine.data
  let st := sorted.foldl (export_compartment_entry engine.data)
    (out_parameters, BEGIN_COMPARTMENTS ++ "\n")
  { out_parameters := st.1,
    out_compartments := st.2 ++ END_COMPARTMENTS ++ "\n",
    returned := "" }

/-! ### `export_to_bngl` (lines 74-93) -/

/-- Result of `export_to_bngl`: final contents of the four streams and the
returned diagnostic text `err_msg`. -/
structure BnglExportResult where
  out_parameters : String
  out_molecule_types : String
  out_compartments : String
  out_reaction_rules : String
  err_msg : String
deriving DecidableEq, Repr

/-- `BNGEngine::export_to_bngl` (lines 74-93): run the three section emitters
in order, threading the shared `out_parameters` stream (all four caller
streams start empty), and return the concatenation of the emitters' returned
diagnostic strings. -/
def export_to_bngl (engine : BNGEngine) (rates_for_nfsim : Bool)
    (volume_um3_for_nfsim area_um3_for_nfsim : String) : BnglExportResult :=
  let mt := export_molecule_types_as_bngl engine ""
  let rx := export_reaction_rules_as_bngl engine mt.1 rates_for_nfsim
    volume_um3_for_nfsim area_um3_for_nfsim
  let cp := export_compartments_as_bngl engine rx.out_parameters
  { out_parameters := cp.out_parameters,
    out_molecule_types := mt.2,
    out_compartments := cp.out_compartments,
    out_reaction_rules := rx.out_reaction_rules,
    err_msg := "" ++ rx.returned ++ cp.returned }

/-! ### Specification-side helper definitions -/

/-- Number of newline characters in a string; a string of the form
`body ++ "\n"` with a newline-free body counts as exactly one emitted line. -/
def count_newlines (s : String) : Nat := s.data.count '\n'

/-- Concatenation of a list of text chunks. -/
def concat_all : List String → String
  | [] => ""
  | s :: rest => s ++ concat_all rest

/-- A reaction rule the BNGL grammar can express: unimolecular, or bimolecular
with a volume-volume, volume-surface or surface-surface geometric class.
Follows the spec's classification table. -/
def RxnRule.expressible_in_bngl (r : RxnRule) : Bool :=
  r.is_unimol || r.is_vol_rxn || r.is_bimol_vol_surf_rxn || r.is_bimol_surf_surf_rxn

/-- The parent reference of a compartment declaration line: the parent's name
when a parent exists, nothing for roots. -/
def parent_reference (data : BNGData) (comp : Compartment) : String :=
  match comp.parent_compartment_id with
  | some pid => " " ++ (data.get_compartment pid).name
  | none => ""

/-- An emission order never places a compartment before its parent: whenever
the compartment at position `i` has a valid parent id, that id already occurs
at some earlier position. -/
def parent_precedes (data : BNGData) (L : List Nat) : Prop :=
  ∀ i, ∀ hi : i < L.length, ∀ p : Nat,
    (data.get_compartment (L.get ⟨i, hi⟩)).parent_compartment_id = some p →
    ∃ j, ∃ hj : j < L.length, j < i ∧ L.get ⟨j, hj⟩ = p

/-- Compartment ids are dense indices into the compartment vector (the
source's `data.get_compartment(id)` is an index access). -/
def ids_match_indices (data : BNGData) : Prop :=
  ∀ i : Fin data.compartments.length, (data.compartments.get i).id = i.val

/-- The spec's parent/child mutual-consistency invariant: every id stored in
a compartment's children sequence belongs to a compartment whose parent id
points back at it. -/
def children_parent_consistent (data : BNGData) : Prop :=
  ∀ comp ∈ data.compartments, ∀ c ∈ comp.children_compartments,
    (data.get_compartment c).parent_compartment_id = some comp.id

/-! ### Concrete witness data -/

/-- A reactive-surface-class (catalytic surface) rule. -/
def reactiveRule : RxnRule :=
  { base_rate_constant := "1000", kind := RxnKind.reactive_surface,
    bngl_str := "@sc: S -> P" }

/-- An ordinary unimolecular rule. -/
def unimolRule : RxnRule :=
  { base_rate_constant := "0.5", kind := RxnKind.unimol, bngl_str := "X -> Y" }

/-- A bimolecular volume-volume rule. -/
def volVolRule : RxnRule :=
  { base_rate_constant := "2", kind := RxnKind.bimol_vol_vol,
    bngl_str := "X + Y -> Z" }

/-- A bimolecular surface-surface rule. -/
def surfSurfRule : RxnRule :=
  { base_rate_constant := "3", kind := RxnKind.bimol_surf_surf,
    bngl_str := "S + T -> U" }

/-- Model with one reactive-surface rule followed by one unimolecular rule. -/
def engineC1 : BNGEngine :=
  { data := { elem_mol_types := [], compartments := [] },
    all_rxns := { rxn_rules_vector := [reactiveRule, unimolRule],
                  num_rxn_classes := 0, existing_reactant_classes := ∅ },
    all_species := { species_vector := [] } }

/-- Model whose registry holds exactly one reactive-surface rule. -/
def engineOnlyReactive : BNGEngine :=
  { data := { elem_mol_types := [], compartments := [] },
    all_rxns := { rxn_rules_vector := [reactiveRule],
                  num_rxn_classes := 0, existing_reactant_classes := ∅ },
    all_species := { species_vector := [] } }

/-- Compartments A (root), B (child of A), C (child of B). -/
def compA : Compartment :=
  { id := 0, name := "A", is_3d := true, volume_or_area := "1",
    parent_compartment_id := none, children_compartments := [1] }

def compB : Compartment :=
  { id := 1, name := "B", is_3d := true, volume_or_area := "2",
    parent_compartment_id := some 0, children_compartments := [2] }

def compC : Compartment :=
  { id := 2, name := "C", is_3d := false, volume_or_area := "3",
    parent_compartment_id := some 1, children_compartments := [] }

def abcData : BNGData := { elem_mol_types := [], compartments := [compA, compB, compC] }

/-- Model with a single 2D (surface) compartment `M` of area 12.5. -/
def comp2d : Compartment :=
  { id := 0, name := "M", is_3d := false, volume_or_area := "12.5",
    parent_compartment_id := none, children_compartments := [] }

def engine2d : BNGEngine :=
  { data := { elem_mol_types := [], compartments := [comp2d] },
    all_rxns := { rxn_rules_vector := [], num_rxn_classes := 0,
                  existing_reactant_classes := ∅ },
    all_species := { species_vector := [] } }

/-- A registry with one never-instantiated species carrying reactant class 5,
the rule registry knowing reactant class 5. -/
def statsEngine : BNGEngine :=
  { data := { elem_mol_types := [], compartments := [] },
    all_rxns := { rxn_rules_vector := [], num_rxn_classes := 0,
                  existing_reactant_classes := {5} },
    all_species := { species_vector :=
      [{ cplx := { orientation := 0, compartment_id := 0, elem_mols := "X(a)" },
         was_instantiated := false, reactant_class_id := some 5 }] } }

/-- A registry with one species template for the instantiation witness. -/
def speciesEngine : BNGEngine :=
  { data := { elem_mol_types := [], compartments := [] },
    all_rxns := { rxn_rules_vector := [], num_rxn_classes := 0,
                  existing_reactant_classes := ∅ },
    all_species := { species_vector :=
      [{ cplx := { orientation := 1, compartment_id := 7, elem_mols := "A(b!1).B(a!1)" },
         was_instantiated := true, reactant_class_id := none }] } }

/-- Model whose registry holds one unimolecular and one volume-volume rule
(all expressible). -/
def engineExpressible : BNGEngine :=
  { data := { elem_mol_types := [], compartments := [] },
    all_rxns := { rxn_rules_vector := [unimolRule, volVolRule],
                  num_rxn_classes := 0, existing_reactant_classes := ∅ },
    all_species := { species_vector := [] } }

/-- A volumetric molecule type. -/
def volMolType : ElemMolType :=
  { name := "V", D := "1e-6", kind := MolKind.vol, decl_str := "V(a,b)" }

/-- A surface molecule type. -/
def surfMolType : ElemMolType :=
  { name := "S", D := "1e-8", kind := MolKind.surf, decl_str := "S(x)" }

/-- A reactive-surface pseudo-type. -/
def reactiveSurfMolType : ElemMolType :=
  { name := "R", D := "0", kind := MolKind.reactive_surface, decl_str := "R()" }

/-! ## Theorems -/

theorem count_newlines_append (a b : String) :
    count_newlines (a ++ b) = count_newlines a + count_newlines b := by
  simp [count_newlines, String.data_append, List.count_append]

/-! ### Statistics (`get_stats_report`) -/

theorem stats_fold_count_le (l : List Species) :
    ∀ acc : Nat × Finset Nat,
      (l.foldl stats_scan_step acc).1 ≤ acc.1 + l.length := by
  induction l with
  | nil => intro acc; simp
  | cons s l ih =>
    intro acc
    simp only [List.foldl_cons, List.length_cons]
    have h1 : (stats_scan_step acc s).1 ≤ acc.1 + 1 := by
      cases hs : s.was_instantiated <;> simp [stats_scan_step, hs]
    have h2 := ih (stats_scan_step acc s)
    omega

theorem stats_fold_classes_subset (E : Finset Nat) (l : List Species) :
    ∀ acc : Nat × Finset Nat, acc.2 ⊆ E →
      (∀ s ∈ l, ∀ rc, s.reactant_class_id = some rc → rc ∈ E) →
      (l.foldl stats_scan_step acc).2 ⊆ E := by
  induction l with
  | nil => intro acc hacc _; simpa using hacc
  | cons s l ih =>
    intro acc hacc hl
    simp only [List.foldl_cons]
    refine ih _ ?_ (fun t ht rc h => hl t (List.mem_cons_of_mem _ ht) rc h)
    cases hrc : s.reactant_class_id with
    | none => cases hs : s.was_instantiated <;> simp [stats_scan_step, hs, hrc, hacc]
    | some rc =>
      have hrcE : rc ∈ E := hl s (List.mem_cons_self s l) rc hrc
      cases hs : s.was_instantiated <;>
        simp [stats_scan_step, hs, hrc, Finset.insert_subset_iff, hrcE, hacc]

theorem stats_fold_all_inactive (l : List Species) :
    ∀ acc, (∀ s ∈ l, s.was_instantiated = false) →
      l.foldl stats_scan_step acc = acc := by
  induction l with
  | nil => intro acc _; rfl
  | cons s l ih =>
    intro acc h
    have hs : s.was_instantiated = false := h s (List.mem_cons_self s l)
    simp only [List.foldl_cons]
    rw [show stats_scan_step acc s = acc from by simp [stats_scan_step, hs]]
    exact ih acc (fun t ht => h t (List.mem_cons_of_mem _ ht))

/-- C10: the active-species count reported by `get_stats_report` is at most
the total species count; under the registry invariant that every species'
valid reactant-class id is an existing reactant class of the rule registry,
the active reactant-class count is at most the total existing count; and if
no species was instantiated, both active counts are 0. -/
theorem C10_stats_report_counts (engine : BNGEngine) :
    (stats_scan engine).1 ≤ engine.all_species.species_vector.length ∧
    ((∀ s ∈ engine.all_species.species_vector, ∀ rc,
        s.reactant_class_id = some rc →
        rc ∈ engine.all_rxns.existing_reactant_classes) →
      (stats_scan engine).2.card ≤
        engine.all_rxns.get_num_existing_reactant_classes) ∧
    ((∀ s ∈ engine.all_species.species_vector, s.was_instantiated = false) →
      (stats_scan engine).1 = 0 ∧ (stats_scan engine).2.card = 0) := by
  refine ⟨?_, ?_, ?_⟩
  · simpa [stats_scan] using
      stats_fold_count_le engine.all_species.species_vector (0, ∅)
  · intro h
    have hsub := stats_fold_classes_subset engine.all_rxns.existing_reactant_classes
      engine.all_species.species_vector (0, ∅) (by simp) h
    exact Finset.card_le_card hsub
  · intro h
    have heq := stats_fold_all_inactive engine.all_species.species_vector (0, ∅) h
    simp [stats_scan, heq]

/-- Witness for C10 at `statsEngine` (one never-instantiated species with
reactant class 5; the registry has exactly the reactant class 5). -/
theorem C10_stats_report_counts_witness :
    (stats_scan statsEngine).1 ≤ statsEngine.all_species.species_vector.length ∧
    (stats_scan statsEngine).2.card ≤
      statsEngine.all_rxns.get_num_existing_reactant_classes ∧
    ((stats_scan statsEngine).1 = 0 ∧ (stats_scan statsEngine).2.card = 0) :=
  ⟨(C10_stats_report_counts statsEngine).1,
   (C10_stats_report_counts statsEngine).2.1 (by
      intro s hs rc hrc
      simp only [statsEngine, List.mem_singleton] at hs
      subst hs
      simp only [statsEngine] at hrc ⊢
      simp only [Option.some.injEq] at hrc
      subst hrc
      decide),
   (C10_stats_report_counts statsEngine).2.2 (by decide)⟩

/-! ### Complex instantiation (`create_cplx_from_species`) -/

/-- C9: for a valid species id, `create_cplx_from_species` returns an
independent value copy of the species template's complex: its orientation and
compartment-id fields are exactly the supplied arguments, its structural
content (`elem_mols`) is the template's, and the construction is a functional
update of a copy, leaving the registry entry untouched. -/
theorem C9_create_cplx_copy (engine : BNGEngine) (id : Nat) (o : Int)
    (cid : Nat) (s : Species)
    (h : engine.all_species.species_vector.get? id = some s) :
    create_cplx_from_species engine id o cid =
      some { orientation := o, compartment_id := cid,
             elem_mols := s.cplx.elem_mols } := by
  simp only [List.get?_eq_getElem?] at h
  simp [create_cplx_from_species, h, Cplx.set_orientation, Cplx.set_compartment_id]

/-- Witness for C9 at `speciesEngine`, species 0, orientation -1,
compartment 3. -/
theorem C9_create_cplx_copy_witness :
    create_cplx_from_species speciesEngine 0 (-1) 3 =
      some { orientation := -1, compartment_id := 3,
             elem_mols := "A(b!1).B(a!1)" } :=
  C9_create_cplx_copy speciesEngine 0 (-1) 3
    { cplx := { orientation := 1, compartment_id := 7, elem_mols := "A(b!1).B(a!1)" },
      was_instantiated := true, reactant_class_id := none } rfl

/-! ### Per-rule rate-parameter expressions -/

/-- C2: the rate-parameter expression emitted for a rule is selected by its
classification: unimolecular rules get the base rate constant verbatim with
nothing appended; bimolecular volume-volume or volume-surface rules get
`rate / MCELL2BNG_VOL_CONV * VOL_RXN`; bimolecular surface-surface rules get
`rate / MCELL2BNG_SURF_CONV * SURF_RXN`. -/
theorem C2_rate_parameter_expression_by_classification (i : Nat) (rr : RxnRule) :
    (rr.is_unimol = true →
      (export_one_rxn_rule i rr).param_text =
        IND ++ ("k" ++ toString i) ++ " " ++ f_to_str rr.base_rate_constant ++ "\n") ∧
    ((rr.is_vol_rxn = true ∨ rr.is_bimol_vol_surf_rxn = true) →
      (export_one_rxn_rule i rr).param_text =
        IND ++ ("k" ++ toString i) ++ " " ++ f_to_str rr.base_rate_constant ++
          " / " ++ PARAM_MCELL2BNG_VOL_CONV ++ " * " ++ PARAM_VOL_RXN ++ "\n") ∧
    (rr.is_bimol_surf_surf_rxn = true →
      (export_one_rxn_rule i rr).param_text =
        IND ++ ("k" ++ toString i) ++ " " ++ f_to_str rr.base_rate_constant ++
          " / " ++ PARAM_MCELL2BNG_SURF_CONV ++ " * " ++ PARAM_SURF_RXN ++ "\n") := by
  obtain ⟨rate, kind, bngl⟩ := rr
  cases kind <;>
    simp [export_one_rxn_rule, RxnRule.is_unimol, RxnRule.is_vol_rxn,
      RxnRule.is_bimol_vol_surf_rxn, RxnRule.is_bimol_surf_surf_rxn,
      RxnRule.is_reactive_surface_rxn, RxnRule.is_bimol]

/-- Witness for C2 at a unimolecular, a volume-volume and a surface-surface
rule. -/
theorem C2_rate_parameter_expression_by_classification_witness :
    (export_one_rxn_rule 0 unimolRule).param_text =
      IND ++ ("k" ++ toString 0) ++ " " ++ f_to_str unimolRule.base_rate_constant ++ "\n" ∧
    (export_one_rxn_rule 1 volVolRule).param_text =
      IND ++ ("k" ++ toString 1) ++ " " ++ f_to_str volVolRule.base_rate_constant ++
        " / " ++ PARAM_MCELL2BNG_VOL_CONV ++ " * " ++ PARAM_VOL_RXN ++ "\n" ∧
    (export_one_rxn_rule 2 surfSurfRule).param_text =
      IND ++ ("k" ++ toString 2) ++ " " ++ f_to_str surfSurfRule.base_rate_constant ++
        " / " ++ PARAM_MCELL2BNG_SURF_CONV ++ " * " ++ PARAM_SURF_RXN ++ "\n" :=
  ⟨(C2_rate_parameter_expression_by_classification 0 unimolRule).1 (by decide),
   (C2_rate_parameter_expression_by_classification 1 volVolRule).2.1 (Or.inl (by decide)),
   (C2_rate_parameter_expression_by_classification 2 surfSurfRule).2.2 (by decide)⟩

/-! ### The discarded diagnostic of `export_reaction_rules_as_bngl` -/

/-- C1 (code bug): for a model whose registry holds a reactive-surface-class
rule followed by an ordinary rule, the rule-export loop accumulates the
expected diagnostic identifying the rule by its rendering in its local
`err_msg`, and the body of the loop still emits the parameter line and the
reaction-rule line for the other rule — but the function returns the literal
`""` (source line 218), so the diagnostic string returned by `export_to_bngl`
is empty, not non-empty as the spec states. -/
theorem C1_reactive_surface_diagnostic_is_discarded :
    (export_to_bngl engineC1 false "1" "1").err_msg = "" ∧
    (export_reaction_rules_as_bngl engineC1 "" false "1" "1").returned = "" ∧
    (export_reaction_rules_as_bngl engineC1 "" false "1" "1").err_msg =
      "Cannot express surface class reaction in BNGL, error for " ++
        reactiveRule.bngl_str ++ ".\n" ∧
    (export_reaction_rules_as_bngl engineC1 "" false "1" "1").out_reaction_rules =
      BEGIN_REACTION_RULES ++ "\n" ++
        (IND ++ unimolRule.bngl_str ++ " " ++ "k1" ++ "\n") ++
        END_REACTION_RULES ++ "\n" := by
  decide

/-! ### Global conversion parameters -/

/-- C3: the conversion-factor parameter lines emitted once before the
per-rule lines.  In target-tool (NFSim) mode the volume factor's value
expression is the caller-supplied compartment volume times `1e-15` and the
surface factor's value is the caller-supplied area times the thickness
parameter times `1e-15`; in plain mode the volume factor is `1e-15` and the
surface factor is the thickness parameter alone. -/
theorem C3_conversion_factor_values (vol area : String) :
    (∃ pre post, generate_rxn_rate_conversion_factors true vol area =
      pre ++ (IND ++ PARAM_RATE_CONV_VOLUME ++ " " ++ f_to_str vol ++
        " * 1e-15\n") ++ post) ∧
    (∃ pre post, generate_rxn_rate_conversion_factors true vol area =
      pre ++ (IND ++ PARAM_RATE_CONV_THICKNESS ++ " " ++ f_to_str area ++
        " * " ++ PARAM_THICKNESS ++ " * 1e-15\n") ++ post) ∧
    (∃ pre post, generate_rxn_rate_conversion_factors false vol area =
      pre ++ (IND ++ PARAM_RATE_CONV_VOLUME ++ " 1e-15\n") ++ post) ∧
    (∃ pre post, generate_rxn_rate_conversion_factors false vol area =
      pre ++ (IND ++ PARAM_RATE_CONV_THICKNESS ++ " " ++ PARAM_THICKNESS ++
        "\n") ++ post) := by
  refine ⟨⟨"\n" ++ IND ++ PARAM_THICKNESS ++ " 0.01 # um, assumed membrane thickness\n" ++
      IND ++ "# volume rxn rate conversion factor for NFSim\n",
      "\n" ++ IND ++ "# surface-surface rxn rate conversion factor for NFSim, in um\n" ++
      IND ++ PARAM_RATE_CONV_THICKNESS ++ " " ++ f_to_str area ++ " * " ++
      PARAM_THICKNESS ++ " * 1e-15\n" ++ rate_conversion_tail, ?_⟩,
    ⟨"\n" ++ IND ++ PARAM_THICKNESS ++ " 0.01 # um, assumed membrane thickness\n" ++
      IND ++ "# volume rxn rate conversion factor for NFSim\n" ++
      IND ++ PARAM_RATE_CONV_VOLUME ++ " " ++ f_to_str vol ++ " * 1e-15\n" ++
      "\n" ++ IND ++ "# surface-surface rxn rate conversion factor for NFSim, in um\n",
      rate_conversion_tail, ?_⟩,
    ⟨"\n" ++ IND ++ PARAM_THICKNESS ++ " 0.01 # um, assumed membrane thickness\n" ++
      IND ++ "# volume rxn rate conversion factor for um^3 to litres\n",
      "\n" ++ IND ++ "# surface-surface rxn rate conversion factor for um^2 to um^3 using membrane thickness, in um\n" ++
      IND ++ PARAM_RATE_CONV_THICKNESS ++ " " ++ PARAM_THICKNESS ++ "\n" ++
      rate_conversion_tail, ?_⟩,
    ⟨"\n" ++ IND ++ PARAM_THICKNESS ++ " 0.01 # um, assumed membrane thickness\n" ++
      IND ++ "# volume rxn rate conversion factor for um^3 to litres\n" ++
      IND ++ PARAM_RATE_CONV_VOLUME ++ " 1e-15\n" ++
      "\n" ++ IND ++ "# surface-surface rxn rate conversion factor for um^2 to um^3 using membrane thickness, in um\n",
      rate_conversion_tail, ?_⟩⟩ <;>
    simp only [generate_rxn_rate_conversion_factors, if_true, Bool.false_eq_true,
      if_false, String.append_assoc]

/-! ### Compartment emission skips the default compartment -/

/-- The compartment emission loop contributes nothing for a compartment whose
name is the reserved default name, wherever it occurs in the order. -/
theorem compartment_fold_skips_default (data : BNGData) (ids : List Nat) :
    ∀ st : String × String,
      ids.foldl (export_compartment_entry data) st =
      (ids.filter (fun i =>
        (data.get_compartment i).name != DEFAULT_COMPARTMENT_NAME)).foldl
        (export_compartment_entry data) st := by
  induction ids with
  | nil => intro st; rfl
  | cons i ids ih =>
    intro st
    by_cases hdef : (data.get_compartment i).name = DEFAULT_COMPARTMENT_NAME
    · have hstep : export_compartment_entry data st i = st := by
        simp [export_compartment_entry, hdef]
      simp only [List.foldl_cons, List.filter_cons, hdef, bne_self_eq_false,
        Bool.false_eq_true, if_false, hstep]
      exact ih st
    · have hp : ((data.get_compartment i).name != DEFAULT_COMPARTMENT_NAME) = true := by
        simpa using hdef
      simp only [List.foldl_cons, List.filter_cons, hp, if_true]
      exact ih (export_compartment_entry data st i)

/-- C6: the default-named (sentinel) compartment never contributes to the
compartments section or the parameters stream: the emission fold equals the
fold over the order with all default-named entries removed, regardless of
where they appear, and `export_compartments_as_bngl` therefore equals the
export computed over the default-free order. -/
theorem C6_default_compartment_never_emitted :
    (∀ (data : BNGData) (ids : List Nat) (st : String × String),
      ids.foldl (export_compartment_entry data) st =
      (ids.filter (fun i =>
        (data.get_compartment i).name != DEFAULT_COMPARTMENT_NAME)).foldl
        (export_compartment_entry data) st) ∧
    (∀ (engine : BNGEngine) (out_parameters : String),
      export_compartments_as_bngl engine out_parameters =
        { out_parameters := (((sorted_compartment_ids engine.data).filter (fun i =>
            (engine.data.get_compartment i).name != DEFAULT_COMPARTMENT_NAME)).foldl
            (export_compartment_entry engine.data)
            (out_parameters, BEGIN_COMPARTMENTS ++ "\n")).1,
          out_compartments := (((sorted_compartment_ids engine.data).filter (fun i =>
            (engine.data.get_compartment i).name != DEFAULT_COMPARTMENT_NAME)).foldl
            (export_compartment_entry engine.data)
            (out_parameters, BEGIN_COMPARTMENTS ++ "\n")).2 ++ END_COMPARTMENTS ++ "\n",
          returned := "" }) := by
  refine ⟨fun data ids st => compartment_fold_skips_default data ids st, ?_⟩
  intro engine p
  simp only [export_compartments_as_bngl,
    compartment_fold_skips_default engine.data (sorted_compartment_ids engine.data)]

/-! ### Molecule-type export -/

theorem count_newlines_end_of_line (x : String) :
    count_newlines (x ++ "\n") = count_newlines x + 1 := by
  rw [count_newlines_append]
  have h1 : count_newlines "\n" = 1 := by decide
  rw [h1]

/-- C8: the molecule-type export skips reactive-surface pseudo-types and
species-superclass wildcard names entirely; every other molecule type
contributes exactly one structural declaration line to the molecule-types
section and one diffusion-constant parameter line, 3D-prefixed for
volumetric types and 2D-prefixed for surface types, to the parameters
stream. -/
theorem C8_molecule_type_export (st : String × String) (mt : ElemMolType) :
    ((mt.is_reactive_surface = true ∨ is_species_superclass_name mt.name = true) →
      export_molecule_type_entry st mt = st) ∧
    (mt.kind = MolKind.vol → is_species_superclass_name mt.name = false →
      export_molecule_type_entry st mt =
        (st.1 ++ (IND ++ MCELL_DIFFUSION_CONSTANT_3D_PREF ++ mt.name ++ " " ++
           f_to_str mt.D ++ "\n"),
         st.2 ++ (IND ++ mt.decl_str ++ "\n"))) ∧
    (mt.kind = MolKind.surf → is_species_superclass_name mt.name = false →
      export_molecule_type_entry st mt =
        (st.1 ++ (IND ++ MCELL_DIFFUSION_CONSTANT_2D_PREF ++ mt.name ++ " " ++
           f_to_str mt.D ++ "\n"),
         st.2 ++ (IND ++ mt.decl_str ++ "\n"))) ∧
    (mt.kind ≠ MolKind.reactive_surface → is_species_superclass_name mt.name = false →
      count_newlines mt.name = 0 → count_newlines mt.D = 0 →
      count_newlines mt.decl_str = 0 →
      count_newlines (export_molecule_type_entry st mt).1 =
        count_newlines st.1 + 1 ∧
      count_newlines (export_molecule_type_entry st mt).2 =
        count_newlines st.2 + 1) := by
  obtain ⟨name, D, kind, decl⟩ := mt
  have hIND : count_newlines IND = 0 := by decide
  have h3d : count_newlines MCELL_DIFFUSION_CONSTANT_3D_PREF = 0 := by decide
  have h2d : count_newlines MCELL_DIFFUSION_CONSTANT_2D_PREF = 0 := by decide
  have hsp : count_newlines " " = 0 := by decide
  have hnl : count_newlines "\n" = 1 := by decide
  cases kind
  case vol =>
    refine ⟨?_, ?_, ?_, ?_⟩
    · rintro (h | h)
      · simp [ElemMolType.is_reactive_surface] at h
      · simp [export_molecule_type_entry, h]
    · intro _ hsc
      simp [export_molecule_type_entry, ElemMolType.is_reactive_surface,
        ElemMolType.is_vol, hsc, String.append_assoc]
    · intro h; simp at h
    · intro _ hsc hn hD hd
      constructor <;>
        simp [export_molecule_type_entry, ElemMolType.is_reactive_surface,
          ElemMolType.is_vol, hsc, count_newlines_append, count_newlines_end_of_line,
          f_to_str, hIND, h3d, hsp, hnl, hn, hD, hd]
  case surf =>
    refine ⟨?_, ?_, ?_, ?_⟩
    · rintro (h | h)
      · simp [ElemMolType.is_reactive_surface] at h
      · simp [export_molecule_type_entry, h]
    · intro h; simp at h
    · intro _ hsc
      simp [export_molecule_type_entry, ElemMolType.is_reactive_surface,
        ElemMolType.is_vol, ElemMolType.is_surf, hsc, String.append_assoc]
    · intro _ hsc hn hD hd
      constructor <;>
        simp [export_molecule_type_entry, ElemMolType.is_reactive_surface,
          ElemMolType.is_vol, ElemMolType.is_surf, hsc, count_newlines_append,
          count_newlines_end_of_line, f_to_str, hIND, h2d, hsp, hnl, hn, hD, hd]
  case reactive_surface =>
    refine ⟨?_, ?_, ?_, ?_⟩
    · intro _; simp [export_molecule_type_entry, ElemMolType.is_reactive_surface]
    · intro h; simp at h
    · intro h; simp at h
    · intro h; exact absurd rfl h

/-- Witness for C8: a reactive-surface pseudo-type and a
species-superclass wildcard are skipped; a volumetric and a surface type
each contribute one declaration line and one prefixed parameter line. -/
theorem C8_molecule_type_export_witness :
    export_molecule_type_entry ("", "") reactiveSurfMolType = ("", "") ∧
    export_molecule_type_entry ("", "")
      { name := ALL_MOLECULES, D := "0", kind := MolKind.vol,
        decl_str := ALL_MOLECULES } = ("", "") ∧
    export_molecule_type_entry ("", "") volMolType =
      ("" ++ (IND ++ MCELL_DIFFUSION_CONSTANT_3D_PREF ++ volMolType.name ++ " " ++
         f_to_str volMolType.D ++ "\n"),
       "" ++ (IND ++ volMolType.decl_str ++ "\n")) ∧
    export_molecule_type_entry ("", "") surfMolType =
      ("" ++ (IND ++ MCELL_DIFFUSION_CONSTANT_2D_PREF ++ surfMolType.name ++ " " ++
         f_to_str surfMolType.D ++ "\n"),
       "" ++ (IND ++ surfMolType.decl_str ++ "\n")) ∧
    count_newlines (export_molecule_type_entry ("", "") volMolType).1 =
      count_newlines ("" : String) + 1 :=
  ⟨(C8_molecule_type_export ("", "") reactiveSurfMolType).1 (Or.inl (by decide)),
   (C8_molecule_type_export ("", "")
      { name := ALL_MOLECULES, D := "0", kind := MolKind.vol,
        decl_str := ALL_MOLECULES }).1 (Or.inr (by decide)),
   (C8_molecule_type_export ("", "") volMolType).2.1 rfl (by decide),
   (C8_molecule_type_export ("", "") surfMolType).2.2.1 rfl (by decide),
   ((C8_molecule_type_export ("", "") volMolType).2.2.2 (by decide) (by decide)
      (by decide) (by decide) (by decide)).1⟩

/-! ### Compartment emission lines -/

/-- C7 counterexample: for the model with the single 2D compartment `M`,
`export_compartments_as_bngl` appends exactly one parameter line (the area
parameter) to the parameters stream — not two, as the claim's "additional
area×thickness convenience parameter" would require; the area×thickness
product appears only inline in the declaration line. -/
theorem C7_two_dim_single_parameter_counterexample :
    count_newlines (export_compartments_as_bngl engine2d "").out_parameters = 1 ∧
    ¬ count_newlines (export_compartments_as_bngl engine2d "").out_parameters = 2 ∧
    (export_compartments_as_bngl engine2d "").out_parameters =
      IND ++ PREFIX_AREA ++ "M" ++ " " ++ "12.5" ++ " # um^2\n" ∧
    (export_compartments_as_bngl engine2d "").out_compartments =
      BEGIN_COMPARTMENTS ++ "\n" ++
        (IND ++ "M" ++ " 2 " ++ PREFIX_AREA ++ "M" ++ " * " ++ PARAM_THICKNESS ++
          "\n") ++
        END_COMPARTMENTS ++ "\n" := by
  decide

/-- C7 (amended): each non-default compartment contributes exactly one size
parameter line — the volume parameter for 3D, the area parameter for 2D —
and one declaration line; the 2D declaration's size expression is the area
parameter times the thickness parameter written inline (no separate
area×thickness parameter); the declaration carries the parent's name when a
parent exists and omits the parent reference for roots. -/
theorem C7_compartment_emission_amended (data : BNGData) (st : String × String)
    (comp_id : Nat) (comp : Compartment)
    (hcomp : data.get_compartment comp_id = comp)
    (hname : comp.name ≠ DEFAULT_COMPARTMENT_NAME) :
    (comp.is_3d = true →
      export_compartment_entry data st comp_id =
        (st.1 ++ (IND ++ PREFIX_VOLUME ++ comp.name ++ " " ++
           f_to_str comp.volume_or_area ++ " # um^3\n"),
         st.2 ++ (IND ++ comp.name ++ " 3 " ++ PREFIX_VOLUME ++ comp.name ++
           parent_reference data comp ++ "\n"))) ∧
    (comp.is_3d = false →
      export_compartment_entry data st comp_id =
        (st.1 ++ (IND ++ PREFIX_AREA ++ comp.name ++ " " ++
           f_to_str comp.volume_or_area ++ " # um^2\n"),
         st.2 ++ (IND ++ comp.name ++ " 2 " ++ PREFIX_AREA ++ comp.name ++
           " * " ++ PARAM_THICKNESS ++ parent_reference data comp ++ "\n"))) ∧
    (count_newlines comp.name = 0 → count_newlines comp.volume_or_area = 0 →
      count_newlines (export_compartment_entry data st comp_id).1 =
        count_newlines st.1 + 1) := by
  have hIND : count_newlines IND = 0 := by decide
  have hva : count_newlines PREFIX_VOLUME = 0 ∧ count_newlines PREFIX_AREA = 0 := by
    constructor <;> decide
  have hsp : count_newlines " " = 0 := by decide
  refine ⟨?_, ?_, ?_⟩
  · intro h3
    cases hp : comp.parent_compartment_id <;>
      simp [export_compartment_entry, hcomp, hname, h3, parent_reference, hp,
        String.append_assoc]
  · intro h2
    cases hp : comp.parent_compartment_id <;>
      simp [export_compartment_entry, hcomp, hname, h2, parent_reference, hp,
        String.append_assoc]
  · intro hn hv
    cases h3 : comp.is_3d <;> cases hp : comp.parent_compartment_id <;>
      simp [export_compartment_entry, hcomp, hname, h3, hp, f_to_str,
        count_newlines_append, hIND, hva.1, hva.2, hsp, hn, hv,
        show count_newlines " # um^3\n" = 1 from by decide,
        show count_newlines " # um^2\n" = 1 from by decide]

/-- Witness for C7 at the 3D root `A` and the 2D child `C` of `abcData`. -/
theorem C7_compartment_emission_amended_witness :
    export_compartment_entry abcData ("", "") 0 =
      ("" ++ (IND ++ PREFIX_VOLUME ++ compA.name ++ " " ++
         f_to_str compA.volume_or_area ++ " # um^3\n"),
       "" ++ (IND ++ compA.name ++ " 3 " ++ PREFIX_VOLUME ++ compA.name ++
         parent_reference abcData compA ++ "\n")) ∧
    export_compartment_entry abcData ("", "") 2 =
      ("" ++ (IND ++ PREFIX_AREA ++ compC.name ++ " " ++
         f_to_str compC.volume_or_area ++ " # um^2\n"),
       "" ++ (IND ++ compC.name ++ " 2 " ++ PREFIX_AREA ++ compC.name ++
         " * " ++ PARAM_THICKNESS ++ parent_reference abcData compC ++ "\n")) ∧
    count_newlines (export_compartment_entry abcData ("", "") 0).1 =
      count_newlines ("" : String) + 1 :=
  ⟨(C7_compartment_emission_amended abcData ("", "") 0 compA rfl (by decide)).1 rfl,
   (C7_compartment_emission_amended abcData ("", "") 2 compC rfl (by decide)).2.1 rfl,
   (C7_compartment_emission_amended abcData ("", "") 0 compA rfl
      (by decide)).2.2 (by decide) (by decide)⟩

/-! ### Lock-step rule emission -/

theorem digitChar_ne_newline (m : Nat) : Nat.digitChar m ≠ '\n' := by
  rcases Nat.lt_or_ge m 16 with h | h
  · interval_cases m <;> decide
  · have h0 : ¬ m = 0 := by omega
    have h1 : ¬ m = 1 := by omega
    have h2 : ¬ m = 2 := by omega
    have h3 : ¬ m = 3 := by omega
    have h4 : ¬ m = 4 := by omega
    have h5 : ¬ m = 5 := by omega
    have h6 : ¬ m = 6 := by omega
    have h7 : ¬ m = 7 := by omega
    have h8 : ¬ m = 8 := by omega
    have h9 : ¬ m = 9 := by omega
    have h10 : ¬ m = 10 := by omega
    have h11 : ¬ m = 11 := by omega
    have h12 : ¬ m = 12 := by omega
    have h13 : ¬ m = 13 := by omega
    have h14 : ¬ m = 14 := by omega
    have h15 : ¬ m = 15 := by omega
    simp only [Nat.digitChar, if_neg h0, if_neg h1, if_neg h2, if_neg h3,
      if_neg h4, if_neg h5, if_neg h6, if_neg h7, if_neg h8, if_neg h9,
      if_neg h10, if_neg h11, if_neg h12, if_neg h13, if_neg h14, if_neg h15]
    decide

theorem toDigitsCore_no_newline (b : Nat) :
    ∀ (f n : Nat) (l : List Char), (∀ c ∈ l, c ≠ '\n') →
      ∀ c ∈ Nat.toDigitsCore b f n l, c ≠ '\n' := by
  intro f
  induction f with
  | zero => intro n l hl; simpa [Nat.toDigitsCore] using hl
  | succ f ih =>
    intro n l hl c hc
    simp only [Nat.toDigitsCore] at hc
    have hd : ∀ x ∈ Nat.digitChar (n % b) :: l, x ≠ '\n' := by
      intro x hx
      rcases List.mem_cons.mp hx with h | h
      · subst h; exact digitChar_ne_newline _
      · exact hl x h
    split at hc
    · exact hd c hc
    · exact ih (n / b) _ hd c hc

/-- The decimal rendering of a rule index contains no newline, so an
index-derived rate-parameter symbol `k<i>` never breaks a line. -/
theorem count_newlines_toString_nat (n : Nat) : count_newlines (toString n) = 0 := by
  have h : ∀ c ∈ Nat.toDigits 10 n, c ≠ '\n' :=
    toDigitsCore_no_newline 10 (n + 1) n [] (by simp)
  rw [count_newlines, show (toString n).data = Nat.toDigits 10 n from rfl,
    List.count_eq_zero]
  intro hmem
  exact h '\n' hmem rfl

theorem rule_loop_fold (l : List (Nat × RxnRule)) :
    ∀ acc : String × String × String,
      l.foldl rule_loop_step acc =
      (acc.1 ++ concat_all (l.map fun ir => (export_one_rxn_rule ir.1 ir.2).param_text),
       acc.2.1 ++ concat_all (l.map fun ir => (export_one_rxn_rule ir.1 ir.2).rule_text),
       acc.2.2 ++ concat_all (l.map fun ir => (export_one_rxn_rule ir.1 ir.2).err_text)) := by
  induction l with
  | nil =>
    intro acc
    obtain ⟨a, b, c⟩ := acc
    simp [concat_all, String.append_empty]
  | cons ir l ih =>
    intro acc
    obtain ⟨a, b, c⟩ := acc
    simp only [List.foldl_cons, List.map_cons, concat_all, ih, rule_loop_step,
      String.append_assoc]

/-- C5 counterexample: a registry holding exactly one (reactive-surface)
rule for which the reaction-rules stream receives zero lines and the
parameters stream receives an unterminated fragment, refuting "exactly one
line per rule in each stream" for every registered rule. -/
theorem C5_lockstep_counterexample :
    engineOnlyReactive.all_rxns.rxn_rules_vector.length = 1 ∧
    (export_reaction_rules_as_bngl engineOnlyReactive "" false "1" "1").out_reaction_rules =
      BEGIN_REACTION_RULES ++ "\n" ++ END_REACTION_RULES ++ "\n" ∧
    (export_one_rxn_rule 0 reactiveRule).rule_text = "" ∧
    count_newlines (export_one_rxn_rule 0 reactiveRule).param_text = 0 := by
  decide

/-- C5 (amended): when every registered rule is expressible (unimolecular or
bimolecular volume-volume / volume-surface / surface-surface, with
newline-free renderings), the two streams receive the per-rule emissions in
lock-step, in registry iteration order, exactly one newline-terminated line
per rule in each stream, and the parameter-definition line and the
rule-reference line of the `i`-th rule carry the same index-derived symbol
`k<i>`. -/
theorem C5_lockstep_amended (engine : BNGEngine) (p0 : String) (nfsim : Bool)
    (v a : String)
    (hexp : ∀ r ∈ engine.all_rxns.rxn_rules_vector, r.expressible_in_bngl = true)
    (hnl : ∀ r ∈ engine.all_rxns.rxn_rules_vector,
      count_newlines r.base_rate_constant = 0 ∧ count_newlines r.bngl_str = 0) :
    (export_reaction_rules_as_bngl engine p0 nfsim v a).out_parameters =
      p0 ++ generate_rxn_rate_conversion_factors nfsim v a ++ "\n" ++ IND ++
        "# reaction rates\n" ++
        concat_all (engine.all_rxns.rxn_rules_vector.enum.map
          (fun ir => (export_one_rxn_rule ir.1 ir.2).param_text)) ∧
    (export_reaction_rules_as_bngl engine p0 nfsim v a).out_reaction_rules =
      BEGIN_REACTION_RULES ++ "\n" ++
        concat_all (engine.all_rxns.rxn_rules_vector.enum.map
          (fun ir => (export_one_rxn_rule ir.1 ir.2).rule_text)) ++
        END_REACTION_RULES ++ "\n" ∧
    (∀ ir ∈ engine.all_rxns.rxn_rules_vector.enum,
      count_newlines (export_one_rxn_rule ir.1 ir.2).param_text = 1 ∧
      count_newlines (export_one_rxn_rule ir.1 ir.2).rule_text = 1 ∧
      (export_one_rxn_rule ir.1 ir.2).rule_text =
        IND ++ ir.2.bngl_str ++ " " ++ ("k" ++ toString ir.1) ++ "\n" ∧
      ∃ rest, (export_one_rxn_rule ir.1 ir.2).param_text =
        IND ++ ("k" ++ toString ir.1) ++ " " ++ rest) := by
  refine ⟨?_, ?_, ?_⟩
  · simp only [export_reaction_rules_as_bngl, rule_loop_fold]
  · simp only [export_reaction_rules_as_bngl, rule_loop_fold]
  · intro ir hir
    have hmem : ir.2 ∈ engine.all_rxns.rxn_rules_vector := by
      have := List.mem_map_of_mem Prod.snd hir
      rwa [List.enum_map_snd] at this
    obtain ⟨i, rr⟩ := ir
    have hr := hexp rr hmem
    obtain ⟨hrate, hbngl⟩ := hnl rr hmem
    have hIND : count_newlines IND = 0 := by decide
    have hk0 : count_newlines "k" = 0 := by decide
    have hsp : count_newlines " " = 0 := by decide
    have hnl1 : count_newlines "\n" = 1 := by decide
    have hdiv : count_newlines " / " = 0 := by decide
    have hmul : count_newlines " * " = 0 := by decide
    have hvc : count_newlines PARAM_MCELL2BNG_VOL_CONV = 0 := by decide
    have hsc : count_newlines PARAM_MCELL2BNG_SURF_CONV = 0 := by decide
    have hvr : count_newlines PARAM_VOL_RXN = 0 := by decide
    have hsr : count_newlines PARAM_SURF_RXN = 0 := by decide
    cases hkrr : rr.kind
    case unimol =>
      refine ⟨?_, ?_, ?_, ⟨f_to_str rr.base_rate_constant ++ "\n", ?_⟩⟩ <;>
        simp [export_one_rxn_rule, RxnRule.is_reactive_surface_rxn,
          RxnRule.is_bimol, RxnRule.is_unimol, RxnRule.is_vol_rxn,
          RxnRule.is_bimol_vol_surf_rxn, RxnRule.is_bimol_surf_surf_rxn, hkrr,
          count_newlines_append, count_newlines_toString_nat, f_to_str, hrate,
          hbngl, hIND, hk0, hsp, hnl1, String.append_assoc]
    case bimol_vol_vol =>
      refine ⟨?_, ?_, ?_, ⟨f_to_str rr.base_rate_constant ++ " / " ++
          PARAM_MCELL2BNG_VOL_CONV ++ " * " ++ PARAM_VOL_RXN ++ "\n", ?_⟩⟩ <;>
        simp [export_one_rxn_rule, RxnRule.is_reactive_surface_rxn,
          RxnRule.is_bimol, RxnRule.is_unimol, RxnRule.is_vol_rxn,
          RxnRule.is_bimol_vol_surf_rxn, RxnRule.is_bimol_surf_surf_rxn, hkrr,
          count_newlines_append, count_newlines_toString_nat, f_to_str, hrate,
          hbngl, hIND, hk0, hsp, hnl1, hdiv, hmul, hvc, hvr, String.append_assoc]
    case bimol_vol_surf =>
      refine ⟨?_, ?_, ?_, ⟨f_to_str rr.base_rate_constant ++ " / " ++
          PARAM_MCELL2BNG_VOL_CONV ++ " * " ++ PARAM_VOL_RXN ++ "\n", ?_⟩⟩ <;>
        simp [export_one_rxn_rule, RxnRule.is_reactive_surface_rxn,
          RxnRule.is_bimol, RxnRule.is_unimol, RxnRule.is_vol_rxn,
          RxnRule.is_bimol_vol_surf_rxn, RxnRule.is_bimol_surf_surf_rxn, hkrr,
          count_newlines_append, count_newlines_toString_nat, f_to_str, hrate,
          hbngl, hIND, hk0, hsp, hnl1, hdiv, hmul, hvc, hvr, String.append_assoc]
    case bimol_surf_surf =>
      refine ⟨?_, ?_, ?_, ⟨f_to_str rr.base_rate_constant ++ " / " ++
          PARAM_MCELL2BNG_SURF_CONV ++ " * " ++ PARAM_SURF_RXN ++ "\n", ?_⟩⟩ <;>
        simp [export_one_rxn_rule, RxnRule.is_reactive_surface_rxn,
          RxnRule.is_bimol, RxnRule.is_unimol, RxnRule.is_vol_rxn,
          RxnRule.is_bimol_vol_surf_rxn, RxnRule.is_bimol_surf_surf_rxn, hkrr,
          count_newlines_append, count_newlines_toString_nat, f_to_str, hrate,
          hbngl, hIND, hk0, hsp, hnl1, hdiv, hmul, hsc, hsr, String.append_assoc]
    case bimol_other =>
      simp [RxnRule.expressible_in_bngl, RxnRule.is_unimol, RxnRule.is_vol_rxn,
        RxnRule.is_bimol_vol_surf_rxn, RxnRule.is_bimol_surf_surf_rxn, hkrr] at hr
    case reactive_surface =>
      simp [RxnRule.expressible_in_bngl, RxnRule.is_unimol, RxnRule.is_vol_rxn,
        RxnRule.is_bimol_vol_surf_rxn, RxnRule.is_bimol_surf_surf_rxn, hkrr] at hr
    case arity_other =>
      simp [RxnRule.expressible_in_bngl, RxnRule.is_unimol, RxnRule.is_vol_rxn,
        RxnRule.is_bimol_vol_surf_rxn, RxnRule.is_bimol_surf_surf_rxn, hkrr] at hr

/-- Witness for C5 (amended) at `engineExpressible` (a unimolecular and a
volume-volume rule), instantiating the per-rule facts at the first rule. -/
theorem C5_lockstep_amended_witness :
    (export_reaction_rules_as_bngl engineExpressible "" false "1" "1").out_parameters =
      "" ++ generate_rxn_rate_conversion_factors false "1" "1" ++ "\n" ++ IND ++
        "# reaction rates\n" ++
        concat_all (engineExpressible.all_rxns.rxn_rules_vector.enum.map
          (fun ir => (export_one_rxn_rule ir.1 ir.2).param_text)) ∧
    (export_reaction_rules_as_bngl engineExpressible "" false "1" "1").out_reaction_rules =
      BEGIN_REACTION_RULES ++ "\n" ++
        concat_all (engineExpressible.all_rxns.rxn_rules_vector.enum.map
          (fun ir => (export_one_rxn_rule ir.1 ir.2).rule_text)) ++
        END_REACTION_RULES ++ "\n" ∧
    count_newlines (export_one_rxn_rule 0 unimolRule).param_text = 1 ∧
    count_newlines (export_one_rxn_rule 0 unimolRule).rule_text = 1 ∧
    (export_one_rxn_rule 0 unimolRule).rule_text =
      IND ++ unimolRule.bngl_str ++ " " ++ ("k" ++ toString 0) ++ "\n" :=
  ⟨(C5_lockstep_amended engineExpressible "" false "1" "1" (by decide) (by decide)).1,
   (C5_lockstep_amended engineExpressible "" false "1" "1" (by decide) (by decide)).2.1,
   ((C5_lockstep_amended engineExpressible "" false "1" "1" (by decide)
      (by decide)).2.2 (0, unimolRule) (by decide)).1,
   ((C5_lockstep_amended engineExpressible "" false "1" "1" (by decide)
      (by decide)).2.2 (0, unimolRule) (by decide)).2.1,
   ((C5_lockstep_amended engineExpressible "" false "1" "1" (by decide)
      (by decide)).2.2 (0, unimolRule) (by decide)).2.2.1⟩

/-! ### Compartment ordering: a parent always precedes its children -/

theorem parent_precedes_nil (data : BNGData) : parent_precedes data [] := by
  intro i hi p _
  exact absurd hi (by simp)

theorem parent_precedes_append (data : BNGData) (L : List Nat) (x : Nat)
    (hL : parent_precedes data L)
    (hx : (data.get_compartment x).parent_compartment_id = none ∨
      ∃ q, (data.get_compartment x).parent_compartment_id = some q ∧ q ∈ L) :
    parent_precedes data (L ++ [x]) := by
  intro i hi p hp
  by_cases hiL : i < L.length
  · have hget : (L ++ [x]).get ⟨i, hi⟩ = L.get ⟨i, hiL⟩ := by
      simp only [List.get_eq_getElem]
      exact List.getElem_append_left hiL
    rw [hget] at hp
    obtain ⟨j, hj, hji, hjp⟩ := hL i hiL p hp
    have hj' : j < (L ++ [x]).length := by simp; omega
    refine ⟨j, hj', hji, ?_⟩
    simp only [List.get_eq_getElem]
    rw [List.getElem_append_left hj]
    simpa [List.get_eq_getElem] using hjp
  · have hiEq : i = L.length := by
      have := hi
      simp only [List.length_append, List.length_cons, List.length_nil] at this
      omega
    subst hiEq
    have hget : (L ++ [x]).get ⟨L.length, hi⟩ = x := by
      simp only [List.get_eq_getElem]
      rw [List.getElem_append_right (Nat.le_refl _)]
      simp
    rw [hget] at hp
    rcases hx with hnone | ⟨q, hq, hqL⟩
    · rw [hnone] at hp; cases hp
    · rw [hq] at hp
      obtain rfl : q = p := Option.some.inj hp
      obtain ⟨n, hn⟩ := List.mem_iff_get.mp hqL
      have hn' : n.val < (L ++ [x]).length := by simp; omega
      refine ⟨n.val, hn', n.isLt, ?_⟩
      simp only [List.get_eq_getElem]
      rw [List.getElem_append_left n.isLt]
      simpa [List.get_eq_getElem] using hn

theorem foldl_collect_extends
    (f : List Nat × List Nat → Nat → List Nat × List Nat)
    (hf : ∀ st c, ∃ t, (f st c).2 = st.2 ++ t) :
    ∀ (cs : List Nat) (st : List Nat × List Nat),
      ∃ t, (cs.foldl f st).2 = st.2 ++ t := by
  intro cs
  induction cs with
  | nil => intro st; exact ⟨[], by simp⟩
  | cons c cs ih =>
    intro st
    obtain ⟨t1, h1⟩ := hf st c
    obtain ⟨t2, h2⟩ := ih (f st c)
    exact ⟨t1 ++ t2, by
      simp only [List.foldl_cons, h2, h1, List.append_assoc]⟩

theorem collect_extends (data : BNGData) :
    ∀ (fuel : Nat) (id : Nat) (st : List Nat × List Nat),
      ∃ t, (collect_compartment_children_recursively data fuel id st).2 =
        st.2 ++ t := by
  intro fuel
  induction fuel with
  | zero =>
    intro id st
    exact ⟨[], by simp [collect_compartment_children_recursively]⟩
  | succ fuel ih =>
    intro id st
    by_cases hmem : id ∈ st.1
    · exact ⟨[], by simp [collect_compartment_children_recursively, hmem]⟩
    · obtain ⟨t, ht⟩ := foldl_collect_extends
        (fun st' child_id =>
          collect_compartment_children_recursively data fuel child_id st')
        (fun st' c => ih c st')
        (data.get_compartment id).children_compartments (id :: st.1, st.2 ++ [id])
      refine ⟨[id] ++ t, ?_⟩
      simp only [collect_compartment_children_recursively, hmem, ite_false,
        if_false]
      rw [ht, List.append_assoc]

theorem collect_preserves (data : BNGData)
    (hg : ∀ id c, c ∈ (data.get_compartment id).children_compartments →
      (data.get_compartment c).parent_compartment_id = some id) :
    ∀ (fuel : Nat) (id : Nat) (st : List Nat × List Nat),
      parent_precedes data st.2 →
      ((data.get_compartment id).parent_compartment_id = none ∨
        ∃ q, (data.get_compartment id).parent_compartment_id = some q ∧
          q ∈ st.2) →
      parent_precedes data
        (collect_compartment_children_recursively data fuel id st).2 := by
  intro fuel
  induction fuel with
  | zero =>
    intro id st hpp _
    simpa [collect_compartment_children_recursively] using hpp
  | succ fuel ih =>
    intro id st hpp hpre
    by_cases hmem : id ∈ st.1
    · simpa [collect_compartment_children_recursively, hmem] using hpp
    · simp only [collect_compartment_children_recursively, hmem, ite_false,
        if_false]
      have hpp1 : parent_precedes data (st.2 ++ [id]) :=
        parent_precedes_append data st.2 id hpp hpre
      have hfold : ∀ (cs : List Nat),
          (∀ c ∈ cs, (data.get_compartment c).parent_compartment_id = some id) →
          ∀ st' : List Nat × List Nat, parent_precedes data st'.2 → id ∈ st'.2 →
          parent_precedes data
            ((cs.foldl (fun st'' c =>
              collect_compartment_children_recursively data fuel c st'') st')).2 := by
        intro cs
        induction cs with
        | nil => intro _ st' h _; simpa using h
        | cons c cs ihc =>
          intro hcs st' hpp' hid
          simp only [List.foldl_cons]
          apply ihc (fun x hx => hcs x (List.mem_cons_of_mem _ hx))
          · exact ih c st' hpp'
              (Or.inr ⟨id, hcs c (List.mem_cons_self c cs), hid⟩)
          · obtain ⟨t, ht⟩ := collect_extends data fuel c st'
            rw [ht]
            exact List.mem_append_left t hid
      have hgoal := hfold (data.get_compartment id).children_compartments
        (fun c hc => hg id c hc) (id :: st.1, st.2 ++ [id]) hpp1
        (by simp)
      exact hgoal

theorem get_compartment_of_mem (data : BNGData) (hids : ids_match_indices data)
    (comp : Compartment) (hmem : comp ∈ data.compartments) :
    data.get_compartment comp.id = comp := by
  obtain ⟨n, hn⟩ := List.mem_iff_get.mp hmem
  have hid : comp.id = n.val := by rw [← hn]; exact hids n
  rw [hid]
  unfold BNGData.get_compartment
  rw [List.getD_eq_getElem?_getD, List.getElem?_eq_getElem n.isLt]
  simpa [List.get_eq_getElem] using hn

theorem children_consistent_global (data : BNGData)
    (hids : ids_match_indices data) (hc : children_parent_consistent data) :
    ∀ id c, c ∈ (data.get_compartment id).children_compartments →
      (data.get_compartment c).parent_compartment_id = some id := by
  intro id c hmem
  by_cases hlt : id < data.compartments.length
  · have hget : data.get_compartment id = data.compartments.get ⟨id, hlt⟩ := by
      unfold BNGData.get_compartment
      rw [List.getD_eq_getElem?_getD, List.getElem?_eq_getElem hlt]
      simp [List.get_eq_getElem]
    have hcm : data.compartments.get ⟨id, hlt⟩ ∈ data.compartments :=
      List.get_mem _ _ _
    have hres := hc _ hcm c (by rwa [hget] at hmem)
    rwa [hids ⟨id, hlt⟩] at hres
  · have hget : data.get_compartment id = out_of_range_compartment := by
      unfold BNGData.get_compartment
      rw [List.getD_eq_getElem?_getD, List.getElem?_eq_none (by omega)]
      rfl
    rw [hget] at hmem
    simp [out_of_range_compartment] at hmem

theorem sorted_parent_precedes (data : BNGData) (hids : ids_match_indices data)
    (hc : children_parent_consistent data) :
    parent_precedes data (sorted_compartment_ids data) := by
  have hg := children_consistent_global data hids hc
  have hroot : ∀ l : List Compartment,
      (∀ comp ∈ l, comp ∈ data.compartments) →
      ∀ st : List Nat × List Nat, parent_precedes data st.2 →
      parent_precedes data ((l.foldl (fun st comp =>
        if comp.parent_compartment_id = none then
          collect_compartment_children_recursively data
            (data.compartments.length + 1) comp.id st
        else st) st)).2 := by
    intro l
    induction l with
    | nil => intro _ st h; simpa using h
    | cons comp l ihl =>
      intro hl st hpp
      simp only [List.foldl_cons]
      apply ihl (fun x hx => hl x (List.mem_cons_of_mem _ hx))
      by_cases hpar : comp.parent_compartment_id = none
      · rw [if_pos hpar]
        apply collect_preserves data hg _ comp.id st hpp
        left
        rw [get_compartment_of_mem data hids comp
          (hl comp (List.mem_cons_self comp l))]
        exact hpar
      · rw [if_neg hpar]; exact hpp
  have hres := hroot data.compartments (fun _ h => h) ([], [])
    (parent_precedes_nil data)
  simpa [sorted_compartment_ids] using hres

/-- C4: for every compartment forest whose ids index the compartment vector
and whose parent/child links are mutually consistent, the emission order
computed by the dependency sort of `export_compartments_as_bngl` never
places a compartment before its parent; the traversal visits children in
their stored order, and is deterministic; in particular for compartments
A (root), B (child of A), C (child of B) the order is exactly A, B, C. -/
theorem C4_compartment_order_parent_first :
    (∀ data : BNGData, ids_match_indices data → children_parent_consistent data →
      parent_precedes data (sorted_compartment_ids data)) ∧
    (sorted_compartment_ids abcData).map
      (fun i => (abcData.get_compartment i).name) = ["A", "B", "C"] :=
  ⟨fun data hids hc => sorted_parent_precedes data hids hc, by decide⟩

/-- Witness for C4 at the concrete A/B/C chain. -/
theorem C4_compartment_order_parent_first_witness :
    ids_match_indices abcData ∧ children_parent_consistent abcData ∧
    parent_precedes abcData (sorted_compartment_ids abcData) :=
  ⟨by unfold ids_match_indices; decide,
   by unfold children_parent_consistent; decide,
   C4_compartment_order_parent_first.1 abcData
     (by unfold ids_match_indices; decide)
     (by unfold children_parent_consistent; decide)⟩

end BNG
